import Mathlib

/-!
Verification of the thorlabs-mtd415t driver core: a shallow embedding of
`serial_device.py` and `mtd415t_device.py` (communication log, query
throttling, retry-on-transient-error, set-then-confirm validation, the
typed settings model and the error-register decoder), together with
theorems settling the behavioural claims of the specification.
-/

namespace MTD415T

/-! ### Python modelling helpers -/

/-- Characters stripped by Python `bytes.strip()`: the ASCII whitespace set. -/
def pyIsSpace (c : Char) : Bool :=
  c = ' ' || c = '\t' || c = '\n' || c = '\r' || c = '\x0b' || c = '\x0c'

/-- Python `bytes.strip()` on an ASCII payload: drop whitespace from both ends. -/
def pyStrip (s : String) : String :=
  String.mk (((s.data.dropWhile pyIsSpace).reverse.dropWhile pyIsSpace).reverse)

/-- Python `round()` on an exact (rational-valued) argument: round half to even. -/
def pyRound (q : ℚ) : ℤ :=
  if q - ⌊q⌋ < 1/2 then ⌊q⌋
  else if 1/2 < q - ⌊q⌋ then ⌊q⌋ + 1
  else if ⌊q⌋ % 2 = 0 then ⌊q⌋ else ⌊q⌋ + 1

/-- Python `int()` on a numeric argument: truncation toward zero. -/
def pyInt (q : ℚ) : ℤ :=
  if 0 ≤ q then ⌊q⌋ else -⌊-q⌋

/-- Python `'\x7b:d\x7d'.format(value)` for an integer: canonical decimal ASCII. -/
def intToDecimal (n : ℤ) : String := toString n

/-! ### serial_device.py: the bounded communication log -/

/-- One communication log record (`serial_device.py` lines 59-63): the entry
dict built by `SerialDevice._logger`. -/
structure LogEntry where
  kind : String
  time : ℚ
  content : String
deriving DecidableEq

/-- Embeds `SerialDevice._logger` (`serial_device.py` lines 52-68): if the
current length exceeds `max_log_length` the oldest entry (index 0) is popped,
then the new entry is appended. -/
def logger (max_log_length : ℕ) (log : List LogEntry) (entry : LogEntry) :
    List LogEntry :=
  let log := if max_log_length < log.length then log.drop 1 else log
  log ++ [entry]

/-! ### mtd415t_device.py: construction and query throttling -/

/-- The throttling-relevant session state (`mtd415t_device.py` lines 88-89). -/
structure ThrottleState where
  last_query_time_s : ℚ
  min_query_interval_s : ℚ
deriving DecidableEq

/-- Embeds the throttling part of `MTD415TDevice.__init__`
(`mtd415t_device.py` lines 83-92): `last_query_time_s` is set to the current
time and `min_query_interval_s` is assigned the literal `0.01`; the
`minimal_query_interval_s` argument is never read. -/
def mtd415t_init (now : ℚ) (minimal_query_interval_s : ℚ) : ThrottleState :=
  { last_query_time_s := now, min_query_interval_s := 1/100 }

/-- The idle time computed at `mtd415t_device.py` line 110. -/
def idle_time_s (st : ThrottleState) (now : ℚ) : ℚ :=
  st.min_query_interval_s - (now - st.last_query_time_s)

/-- Wall-clock instant at which the wire exchange of `MTD415TDevice.query`
begins: lines 110-112 sleep for `idle_time_s` exactly when it is positive. -/
def query_start_time (st : ThrottleState) (now : ℚ) : ℚ :=
  if 0 < idle_time_s st now then now + idle_time_s st now else now

/-- Timing behaviour of one `MTD415TDevice.query` call entered at wall-clock
`now` whose wire exchange takes `dur`: returns the start instant of the wire
exchange and the updated state (line 119 records `last_query_time_s` after the
exchange returns). -/
def query_timing (st : ThrottleState) (now dur : ℚ) : ℚ × ThrottleState :=
  let start := query_start_time st now
  (start, { st with last_query_time_s := start + dur })

/-! ### mtd415t_device.py: the query retry loop

The device is modelled as an oracle mapping the attempt index to the raw
line returned by `SerialDevice.query` (`none` is Python `None`, the read
timeout). The source recursion (`mtd415t_device.py` line 123) re-invokes
`self.query(setting, retry=True)`, so the Lean embedding carries explicit
fuel; `RunOutcome.fuelExhausted` records that the source recursion was still
running after `fuel` attempts. -/

/-- Retry condition of `mtd415t_device.py` line 121. -/
def retryable (r : Option String) : Bool :=
  r = some "unknown command\n" || r = none

/-- Outcome of running `MTD415TDevice.query` with the given fuel; both
constructors carry the number of attempts made. -/
inductive RunOutcome
  | done (r : Option String) (attempts : ℕ)
  | fuelExhausted (attempts : ℕ)
deriving DecidableEq

/-- Embeds the retry structure of `MTD415TDevice.query`
(`mtd415t_device.py` lines 118-125): issue one attempt, and when `retry` is
`True` and the response is retryable, recurse with `retry=True` again. -/
def queryRun (dev : ℕ → Option String) (retry : Bool) : ℕ → ℕ → RunOutcome
  | 0, a => RunOutcome.fuelExhausted a
  | fuel + 1, a =>
      let r := dev a
      if retry && retryable r then queryRun dev retry fuel (a + 1)
      else RunOutcome.done r (a + 1)

/-- A device that answers every attempt with the literal retry sentinel. -/
def alwaysUnknown : ℕ → Option String := fun _ => some "unknown command\n"

/-- A device whose first read times out and whose second read succeeds. -/
def failOnceDev : ℕ → Option String :=
  fun i => if i = 0 then none else some "42\n"

/-! ### mtd415t_device.py: the set-then-confirm path

`MTD415TDevice.set` (`mtd415t_device.py` lines 139-174) writes
`<setting><integer>` and then evaluates `self.read().strip()`.  The read
result is modelled as `Option String` (`none` is a timed-out read returning
Python `None`); the outcome records which line of the source the call ends
at. -/

/-- How one `MTD415TDevice.set` call ends.  `attributeError` is the uncaught
`AttributeError` thrown by `None.strip()` at line 162 when the confirmation
read times out; `timeoutError` is the `RuntimeError` of lines 163-166 (the
`confirmation is None` branch); `confirmError` is the `ValueError` of lines
167-170 carrying the stripped device message; `success` falls through to the
auto-save tail. -/
inductive SetOutcome
  | attributeError
  | timeoutError
  | confirmError (deviceMsg : String)
  | success
deriving DecidableEq

/-- Observable effects of one `MTD415TDevice.set` call: its outcome, whether
`print_dump_log` ran, and the commands written on the wire (line terminators
omitted). -/
structure SetRun where
  outcome : SetOutcome
  log_dumped : Bool
  sent : List String
deriving DecidableEq

/-- Embeds `MTD415TDevice.set` (`mtd415t_device.py` lines 139-174) after the
`value = int(value)` coercion of line 147, with `readResult` the raw line
returned by the confirmation `self.read()`.  When `readResult` is `none`,
line 162 evaluates `None.strip()` and the call dies with an
`AttributeError` before either check runs and before any log dump; the
`confirmation is None` check of line 163 is unreachable, so `setModel` never
produces `SetOutcome.timeoutError`. -/
def setModel (setting : String) (value : ℤ) (readResult : Option String)
    (auto_save : Bool) : SetRun :=
  let value_str := intToDecimal value
  let cmd := setting ++ value_str
  match readResult with
  | none =>
      { outcome := SetOutcome.attributeError, log_dumped := false, sent := [cmd] }
  | some line =>
      let confirmation := pyStrip line
      if confirmation ≠ value_str then
        { outcome := SetOutcome.confirmError confirmation, log_dumped := true
          , sent := [cmd] }
      else if auto_save then
        { outcome := SetOutcome.success, log_dumped := false
          , sent := [cmd, "M"] }
      else
        { outcome := SetOutcome.success, log_dumped := false, sent := [cmd] }

/-! ### mtd415t_device.py: the settings model

`helpers.py` is not among the provided sources, so the two validators it
exports are modelled from the spec; the setter bodies that call them
(`mtd415t_device.py` lines 245-431) are embedded from the source. -/

/-- A Python value passed to a setter: either numeric (int or float, the
exact value as a rational) or of any non-numeric type. -/
inductive PyNum
  | numeric (q : ℚ)
  | nonNumeric (descr : String)
deriving DecidableEq

/-- Modelled from the spec: `validate_is_float_or_int` is defined in
`helpers.py`, which is absent from the sources.  Per the spec, a set
operation must "validate the input is numeric (integer or floating point) —
reject otherwise with a type error naming the setting". -/
def validate_is_float_or_int : PyNum → Bool
  | PyNum.numeric _ => true
  | PyNum.nonNumeric _ => false

/-- Modelled from the spec: `validate_is_in_range` is defined in
`helpers.py`, which is absent from the sources.  Per the spec, a set
operation must "validate it falls within `[valid_min, valid_max]` inclusive
— reject otherwise with a range error that names the setting, the bound,
and the unit label". -/
def validate_is_in_range (value lo hi : ℚ) : Bool :=
  decide (lo ≤ value) && decide (value ≤ hi)

/-- Per-setting data read off the setter bodies of `mtd415t_device.py`:
the name used in validation messages, the wire code, the range passed to
`validate_is_in_range`, and whether the setter scales by 1000
(`value = round(value*1e3)`) or truncates to a plain integer
(`value = int(value)`, status delay only, lines 322-329). -/
structure SettingDescr where
  name : String
  code : String
  validMin : ℚ
  validMax : ℚ
  scaled : Bool
deriving DecidableEq

/-- Setter body of `tec_current_limit` (lines 245-252). -/
def tec_current_limit_setting : SettingDescr :=
  ⟨"TEC current limit", "L", 2/10, 2, true⟩

/-- Setter body of `temp_setpoint` (lines 286-293). -/
def temp_setpoint_setting : SettingDescr :=
  ⟨"Temperature setpoint", "T", 5, 45, true⟩

/-- Setter body of `status_temp_window` (lines 304-312). -/
def status_temp_window_setting : SettingDescr :=
  ⟨"Status temperature window", "W", 1/1000, 32768/1000, true⟩

/-- Setter body of `status_delay` (lines 322-329): the only unscaled setting;
`value = int(value)` runs before `validate_is_in_range(value, 1, 32768)`. -/
def status_delay_setting : SettingDescr :=
  ⟨"Status delay", "d", 1, 32768, false⟩

/-- Setter body of `critical_gain` (lines 339-346). -/
def critical_gain_setting : SettingDescr :=
  ⟨"Critical gain", "G", 1/100, 100, true⟩

/-- Setter body of `critical_period` (lines 356-363): the source passes
`100e-3` and `100e3` as the bounds. -/
def critical_period_setting : SettingDescr :=
  ⟨"Critical period", "O", 1/10, 100000, true⟩

/-- Setter body of `cycling_time` (lines 373-380). -/
def cycling_time_setting : SettingDescr :=
  ⟨"Cycling time", "C", 1/1000, 1, true⟩

/-- Setter body of `p_gain` (lines 390-397). -/
def p_gain_setting : SettingDescr :=
  ⟨"P gain", "P", 0, 100, true⟩

/-- Setter body of `i_gain` (lines 407-414). -/
def i_gain_setting : SettingDescr :=
  ⟨"I gain", "I", 0, 100, true⟩

/-- Setter body of `d_gain` (lines 424-431). -/
def d_gain_setting : SettingDescr :=
  ⟨"D gain", "D", 0, 100, true⟩

/-- All defined settings with a set path. -/
def settingDescrs : List SettingDescr :=
  [tec_current_limit_setting, temp_setpoint_setting, status_temp_window_setting
   , status_delay_setting, critical_gain_setting, critical_period_setting
   , cycling_time_setting, p_gain_setting, i_gain_setting, d_gain_setting]

/-- How a setter call ends.  `transmit code wire` means the body reached its
final `self.set(code, wire)` call, i.e. the command was written on the wire;
`typeError` and `rangeError` are validation errors raised before any
transmission. -/
inductive SetterOutcome
  | typeError (settingName : String)
  | rangeError (settingName : String)
  | transmit (code : String) (wire : ℤ)
deriving DecidableEq

/-- Embeds the common shape of the ten setter bodies of
`mtd415t_device.py`:  `validate_is_float_or_int` first (its rejection is the
`nonNumeric` branch), then for scaled settings `validate_is_in_range` on the
raw value followed by `value = round(value*1e3)`, and for the unscaled
status delay `value = int(value)` followed by `validate_is_in_range` on the
truncated value; a passed validation always reaches `self.set`. -/
def setterRun (d : SettingDescr) (v : PyNum) : SetterOutcome :=
  match v with
  | PyNum.nonNumeric _ => SetterOutcome.typeError d.name
  | PyNum.numeric q =>
      if d.scaled then
        if validate_is_in_range q d.validMin d.validMax then
          SetterOutcome.transmit d.code (pyRound (q * 1000))
        else SetterOutcome.rangeError d.name
      else
        if validate_is_in_range ((pyInt q : ℤ) : ℚ) d.validMin d.validMax then
          SetterOutcome.transmit d.code (pyInt q)
        else SetterOutcome.rangeError d.name

/-- Value produced by a getter: the `"<timeout>"` unavailable marker that
every getter returns when the query result is `None`, or a parsed reading. -/
inductive Reading
  | unavailable
  | value (q : ℚ)
deriving DecidableEq

/-- Getter view of a scaled setting (e.g. `temp_setpoint`, lines 278-284):
`None` becomes the unavailable marker, otherwise `float(value) / 1e3`, with
the device modelled as reporting the integer `report`. -/
def scaled_get (report : Option ℤ) : Reading :=
  match report with
  | none => Reading.unavailable
  | some n => Reading.value ((n : ℚ) / 1000)

/-- Getter view of the unscaled `status_delay` (lines 314-320): `None`
becomes the unavailable marker, otherwise `int(value)` unscaled. -/
def status_delay_get (report : Option ℤ) : Reading :=
  match report with
  | none => Reading.unavailable
  | some n => Reading.value (n : ℚ)

/-! ### mtd415t_device.py: the error register decoder -/

/-- Base-2 digits of a natural number, least significant first, computed
with explicit fuel (`binDigitsAux n n` suffices since `n / 2 < n`). -/
def binDigitsAux : ℕ → ℕ → List ℕ
  | 0, _ => []
  | _ + 1, 0 => []
  | fuel + 1, n + 1 => (n + 1) % 2 :: binDigitsAux fuel ((n + 1) / 2)

/-- Base-2 digits of `n`, least significant first (empty for 0). -/
def binDigits (n : ℕ) : List ℕ := binDigitsAux n n

/-- Models Python `'\x7b:016b\x7d'.format(err)` (`mtd415t_device.py` line
220): the base-2 rendering of `err`, most significant digit first,
zero-padded on the left to 16 characters (longer, unpadded, if `err` needs
more than 16 bits; 0 renders as all zeros, matching `'0'` plus padding). -/
def format016b (err : ℕ) : List Char :=
  let ds := (binDigits err).reverse.map fun d => if d = 1 then '1' else '0'
  List.replicate (16 - ds.length) '0' ++ ds

/-- Embeds `MTD415TDevice.error_flags` (lines 212-220) after the integer
parse: `tuple(c == '1' for c in reversed(format(err)))`, bit 0 first. -/
def error_flags (err : ℕ) : List Bool :=
  (format016b err).reverse.map fun c => c == '1'

/-- The `_ERRORS` table (`mtd415t_device.py` lines 61-71), in source
(ascending-bit) order. -/
def errorTable : List (ℕ × String) :=
  [(0, "not enabled"), (1, "internal temperature too high")
   , (2, "thermal latch-up"), (3, "cycling time too small"), (4, "no sensor")
   , (5, "no tec"), (6, "tec polarity reversed"), (13, "value out of range")
   , (14, "invalid command")]

/-- Embeds `MTD415TDevice.errors` (lines 222-235) after the register read:
walk `_ERRORS` in order, skip entries whose flag is unset, collect the rest. -/
def errors (err : ℕ) : List String :=
  (errorTable.filter fun p => (error_flags err).getD p.1 false).map fun p => p.2

/-! ### mtd415t_device.py: which getters pass retry -/

/-- One read path: property name, wire code, and the `retry` argument its
body passes to `self.query`. -/
structure GetterSpec where
  name : String
  code : String
  retry : Bool
deriving DecidableEq

/-- Every property getter of `MTD415TDevice` that issues a query, with the
`retry` flag it passes (`mtd415t_device.py` lines 200-422): all pass `True`
except `tec_voltage` (line 265), whose `self.query('U')` leaves `retry` at
its `False` default. -/
def getters : List GetterSpec :=
  [⟨"idn", "m", true⟩, ⟨"uid", "u", true⟩, ⟨"error_flags", "E", true⟩
   , ⟨"tec_current_limit", "L", true⟩, ⟨"tec_current", "A", true⟩
   , ⟨"tec_voltage", "U", false⟩, ⟨"temp", "Te", true⟩
   , ⟨"temp_setpoint", "T", true⟩, ⟨"status_temp_window", "W", true⟩
   , ⟨"status_delay", "d", true⟩, ⟨"critical_gain", "G", true⟩
   , ⟨"critical_period", "O", true⟩, ⟨"cycling_time", "C", true⟩
   , ⟨"p_gain", "P", true⟩, ⟨"i_gain", "I", true⟩, ⟨"d_gain", "D", true⟩]

/-- Decimal value of a digit list, most significant digit first. -/
def digitsVal (l : List Char) : ℕ :=
  l.foldl (fun a c => 10 * a + (c.toNat - 48)) 0

/-- Models Python `float()` on the ASCII lines relevant here: optional
surrounding whitespace, an optional sign, then digits with at most one
decimal point and at least one digit; any other text is rejected (`none`,
where Python raises `ValueError`).  Exponent and infinity/nan forms, which
the device never produces, are not modelled. -/
def pyFloat (s : String) : Option ℚ :=
  let t := ((s.data.dropWhile pyIsSpace).reverse.dropWhile pyIsSpace).reverse
  let signed : Bool × List Char :=
    match t with
    | '-' :: r => (true, r)
    | '+' :: r => (false, r)
    | r => (false, r)
  let body := signed.2
  let intPart := body.takeWhile Char.isDigit
  let rest := body.dropWhile Char.isDigit
  let mag : Option ℚ :=
    match rest with
    | [] => if intPart.isEmpty then none else some (digitsVal intPart : ℚ)
    | '.' :: fr =>
        let fracPart := fr.takeWhile Char.isDigit
        if (fr.dropWhile Char.isDigit).isEmpty
            && !(intPart.isEmpty && fracPart.isEmpty) then
          some ((digitsVal intPart : ℚ) +
            (digitsVal fracPart : ℚ) / (10 : ℚ) ^ fracPart.length)
        else none
    | _ => none
  match mag with
  | none => none
  | some m => some (if signed.1 then -m else m)

/-- How the `tec_voltage` getter body ends. -/
inductive TecVoltageResult
  | unavailable
  | valueError
  | reading (q : ℚ)
deriving DecidableEq

/-- Embeds the `tec_voltage` getter body (`mtd415t_device.py` lines
262-268) on the raw line returned by its single, non-retrying query:
`None` yields the `"<timeout>"` marker (line 267); any other line reaches
`float(value) / 1e3` (line 268), which raises `ValueError` when the line
does not parse as a number. -/
def tec_voltage (r : Option String) : TecVoltageResult :=
  match r with
  | none => TecVoltageResult.unavailable
  | some line =>
      match pyFloat line with
      | none => TecVoltageResult.valueError
      | some q => TecVoltageResult.reading (q / 1000)

/-! ### Helper lemmas -/

/-- Rounding half to even never moves a rational by more than one half. -/
theorem abs_pyRound_sub_le (q : ℚ) : |(pyRound q : ℚ) - q| ≤ 1/2 := by
  have h1 : (⌊q⌋ : ℚ) ≤ q := Int.floor_le q
  have h2 : q < ⌊q⌋ + 1 := Int.lt_floor_add_one q
  unfold pyRound
  rw [abs_le]
  split_ifs with ha hb hc <;> constructor <;> push_cast <;> linarith

/-- Scaling by 1000, rounding, and unscaling moves a value by at most
one thousandth. -/
theorem scaled_roundtrip_close (x : ℚ) :
    |(pyRound (x * 1000) : ℚ) / 1000 - x| ≤ 1/1000 := by
  have h := abs_pyRound_sub_le (x * 1000)
  rw [abs_le] at h ⊢
  constructor <;> linarith [h.1, h.2]

/-- A scaled setter whose value passes the range check transmits the rounded
scaled value. -/
theorem setterRun_scaled_transmit (d : SettingDescr) (hs : d.scaled = true)
    (x : ℚ) (hlo : d.validMin ≤ x) (hhi : x ≤ d.validMax) :
    setterRun d (PyNum.numeric x) =
      SetterOutcome.transmit d.code (pyRound (x * 1000)) := by
  simp [setterRun, hs, validate_is_in_range, hlo, hhi]

/-- A scaled setter rejects any value strictly outside its range. -/
theorem setterRun_scaled_range_error (d : SettingDescr) (hs : d.scaled = true)
    (x : ℚ) (h : x < d.validMin ∨ d.validMax < x) :
    setterRun d (PyNum.numeric x) = SetterOutcome.rangeError d.name := by
  have hv : validate_is_in_range x d.validMin d.validMax = false := by
    simp only [validate_is_in_range, Bool.and_eq_false_iff,
      decide_eq_false_iff_not, not_le]
    exact h
  simp [setterRun, hs, hv]

/-- The unscaled setter whose truncated value passes the range check
transmits the truncation. -/
theorem setterRun_unscaled_transmit (d : SettingDescr) (hs : d.scaled = false)
    (x : ℚ) (hlo : d.validMin ≤ (pyInt x : ℚ)) (hhi : (pyInt x : ℚ) ≤ d.validMax) :
    setterRun d (PyNum.numeric x) = SetterOutcome.transmit d.code (pyInt x) := by
  simp [setterRun, hs, validate_is_in_range, hlo, hhi]

/-- The unscaled setter rejects a value whose truncation is strictly outside
its range. -/
theorem setterRun_unscaled_range_error (d : SettingDescr) (hs : d.scaled = false)
    (x : ℚ) (h : (pyInt x : ℚ) < d.validMin ∨ d.validMax < (pyInt x : ℚ)) :
    setterRun d (PyNum.numeric x) = SetterOutcome.rangeError d.name := by
  have hv : validate_is_in_range ((pyInt x : ℤ) : ℚ) d.validMin d.validMax = false := by
    simp only [validate_is_in_range, Bool.and_eq_false_iff,
      decide_eq_false_iff_not, not_le]
    exact h
  simp [setterRun, hs, hv]

/-- Digit `i` of the fuelled binary expansion is `n / 2 ^ i % 2`. -/
theorem binDigitsAux_getD (fuel : ℕ) :
    ∀ n i : ℕ, n ≤ fuel → (binDigitsAux fuel n).getD i 0 = n / 2 ^ i % 2 := by
  induction fuel with
  | zero =>
      intro n i h
      have hn : n = 0 := by omega
      subst hn
      simp [binDigitsAux]
  | succ fuel ih =>
      intro n i h
      cases n with
      | zero => simp [binDigitsAux]
      | succ m =>
          cases i with
          | zero => simp [binDigitsAux]
          | succ j =>
              have hrec : (m + 1) / 2 ≤ fuel := by omega
              simp only [binDigitsAux, List.getD_cons_succ]
              rw [ih ((m + 1) / 2) j hrec, Nat.div_div_eq_div_mul, pow_succ,
                Nat.mul_comm]

/-- A number below `2 ^ k` has at most `k` binary digits. -/
theorem binDigitsAux_length_le (fuel : ℕ) :
    ∀ n k : ℕ, n ≤ fuel → n < 2 ^ k → (binDigitsAux fuel n).length ≤ k := by
  induction fuel with
  | zero =>
      intro n k h hk
      have hn : n = 0 := by omega
      subst hn
      simp [binDigitsAux]
  | succ fuel ih =>
      intro n k h hk
      cases n with
      | zero => simp [binDigitsAux]
      | succ m =>
          cases k with
          | zero => simp at hk
          | succ j =>
              simp only [binDigitsAux, List.length_cons]
              have h1 : (m + 1) / 2 ≤ fuel := by omega
              have h2 : (m + 1) / 2 < 2 ^ j := by
                have hp : m + 1 < 2 ^ j * 2 := by
                  rw [← pow_succ]
                  exact hk
                omega
              have := ih ((m + 1) / 2) j h1 h2
              omega

/-- Every number is below two to the power of its binary digit count. -/
theorem lt_two_pow_binDigitsAux_length (fuel : ℕ) :
    ∀ n : ℕ, n ≤ fuel → n < 2 ^ (binDigitsAux fuel n).length := by
  induction fuel with
  | zero =>
      intro n h
      have hn : n = 0 := by omega
      subst hn
      simp [binDigitsAux]
  | succ fuel ih =>
      intro n h
      cases n with
      | zero => simp [binDigitsAux]
      | succ m =>
          simp only [binDigitsAux, List.length_cons, pow_succ]
          have := ih ((m + 1) / 2) (by omega)
          omega

/-- The decoded flag list is the binary digits (tested against 1) padded on
the right with `false` up to 16 entries. -/
theorem error_flags_eq (n : ℕ) :
    error_flags n = (binDigits n).map (fun d => d == 1) ++
      List.replicate (16 - (binDigits n).length) false := by
  have hfg : ∀ d : ℕ, ((if d = 1 then '1' else '0') == '1') = (d == 1) := by
    intro d
    rcases eq_or_ne d 1 with h | h <;> simp [h]
  unfold error_flags format016b
  rw [List.reverse_append, List.map_append, List.reverse_replicate,
    List.map_replicate]
  rw [show ((binDigits n).reverse.map fun d => if d = 1 then '1' else '0').reverse
      = (binDigits n).map fun d => if d = 1 then '1' else '0' by
    rw [← List.map_reverse, List.reverse_reverse]]
  rw [List.map_map]
  congr 1
  · exact List.map_congr_left fun d _ => hfg d
  · simp

/-- For registers that fit in 16 bits, the decoded flag list has exactly 16
entries. -/
theorem error_flags_length (n : ℕ) (hn : n < 2 ^ 16) :
    (error_flags n).length = 16 := by
  rw [error_flags_eq]
  have h := binDigitsAux_length_le n n 16 le_rfl hn
  simp only [List.length_append, List.length_map, List.length_replicate,
    binDigits] at *
  omega

/-- Entry `i` of the decoded flag list is bit `i` of the register. -/
theorem error_flags_getD (n i : ℕ) (hn : n < 2 ^ 16) (hi : i < 16) :
    (error_flags n).getD i false = n.testBit i := by
  rw [error_flags_eq]
  rw [List.getD_eq_getElem?_getD]
  by_cases h : i < (binDigits n).length
  · rw [List.getElem?_append_left (by simpa using h), List.getElem?_map]
    rw [List.getElem?_eq_getElem h]
    have hd := binDigitsAux_getD n n i le_rfl
    rw [show binDigitsAux n n = binDigits n from rfl] at hd
    rw [List.getD_eq_getElem?_getD, List.getElem?_eq_getElem h] at hd
    simp only [Option.map_some, Option.getD_some] at *
    rw [hd, Nat.testBit_to_div_mod]
    rcases Nat.mod_two_eq_zero_or_one (n / 2 ^ i) with he | he <;> simp [he]
  · push_neg at h
    rw [List.getElem?_append_right (by simpa using h)]
    have hbit : n.testBit i = false := by
      apply Nat.testBit_eq_false_of_lt
      calc n < 2 ^ (binDigits n).length :=
              lt_two_pow_binDigitsAux_length n n le_rfl
        _ ≤ 2 ^ i := Nat.pow_le_pow_right (by omega) h
    rw [hbit, List.getElem?_replicate]
    simp only [List.length_map]
    split_ifs <;> simp

/-- Claim C1, counterexample: with retry enabled and a device that keeps
answering the literal `unknown command` line, `query` is not bounded by two
attempts: granted fuel for 9 attempts it makes all 9 and is still retrying. -/
theorem query_retry_not_bounded_by_two :
    queryRun alwaysUnknown true 9 0 = RunOutcome.fuelExhausted 9 ∧ ¬(9 ≤ 2) :=
  ⟨by decide, by omega⟩

/-- Claim C1 (amended): with retry enabled, `query` waits 100 ms and reissues
the query after every response that is the absent-value sentinel or the
literal `unknown command` line, with no bound on the number of attempts; if
the device's first `k` responses are retryable and its response to attempt
`k` is not, exactly `k + 1` attempts are made and that response is
returned. -/
theorem query_retry_until_first_good (dev : ℕ → Option String) (k a fuel : ℕ)
    (hbad : ∀ i, i < k → retryable (dev (a + i)) = true)
    (hgood : retryable (dev (a + k)) = false)
    (hfuel : k < fuel) :
    queryRun dev true fuel a = RunOutcome.done (dev (a + k)) (a + k + 1) := by
  induction k generalizing a fuel with
  | zero =>
      cases fuel with
      | zero => omega
      | succ f =>
          simp only [Nat.add_zero] at hgood ⊢
          simp [queryRun, hgood]
  | succ k ih =>
      cases fuel with
      | zero => omega
      | succ f =>
          have h0 : retryable (dev a) = true := by
            have h := hbad 0 (Nat.succ_pos k)
            simpa using h
          have hbad2 : ∀ i, i < k → retryable (dev (a + 1 + i)) = true := by
            intro i hi
            have h := hbad (i + 1) (by omega)
            have e : a + (i + 1) = a + 1 + i := by omega
            rwa [e] at h
          have hgood2 : retryable (dev (a + 1 + k)) = false := by
            have e : a + (k + 1) = a + 1 + k := by omega
            rwa [e] at hgood
          have hrec := ih (a + 1) f hbad2 hgood2 (by omega)
          have e1 : a + 1 + k = a + (k + 1) := by omega
          rw [show queryRun dev true (f + 1) a = queryRun dev true f (a + 1) by
            simp [queryRun, h0]]
          rw [hrec, e1]

/-- Claim C2: the communication log is not bounded by `max_log_length` — the
eviction at `serial_device.py` line 56 fires only when the length already
exceeds the bound, so with `max_log_length = 1` three appends leave 2
entries; the entry evicted is indeed the oldest. -/
theorem log_exceeds_bound_by_one :
    (logger 1 (logger 1 (logger 1 [] ⟨"write", 0, "a"⟩) ⟨"read", 1, "b"⟩)
        ⟨"write", 2, "c"⟩).length = 2 ∧
    ¬(2 ≤ 1) ∧
    logger 1 [⟨"write", 0, "a"⟩, ⟨"read", 1, "b"⟩] ⟨"write", 2, "c"⟩ =
      [⟨"read", 1, "b"⟩, ⟨"write", 2, "c"⟩] :=
  ⟨rfl, by omega, rfl⟩

/-- Claim C3: when the confirmation read of `set` times out, the call does
not raise the documented timeout error and does not dump the communication
log — `self.read().strip()` at `mtd415t_device.py` line 162 evaluates
`None.strip()` and dies with an `AttributeError` first; the
`confirmation is None` branch of line 163 is unreachable for every input. -/
theorem set_timeout_attribute_crash :
    setModel "L" 500 none false =
      { outcome := SetOutcome.attributeError, log_dumped := false
        , sent := ["L500"] } ∧
    ∀ s : String, ∀ v : ℤ, ∀ r : Option String, ∀ a : Bool,
      (setModel s v r a).outcome ≠ SetOutcome.timeoutError := by
  refine ⟨by decide, fun s v r a => ?_⟩
  unfold setModel
  cases r with
  | none => simp
  | some line =>
      by_cases hc : pyStrip line = intToDecimal v
      · cases a <;> simp [hc]
      · simp [hc]

/-- Claim C4: whenever the confirmation line is present but its stripped
form differs from the canonical decimal rendering of the integer sent, `set`
dumps the communication log and ends with the `ValueError` carrying the
device's stripped message — it transmits exactly the one command and neither
retries nor swallows the error. -/
theorem set_confirmation_mismatch_error (setting : String) (value : ℤ)
    (line : String) (auto_save : Bool)
    (h : pyStrip line ≠ intToDecimal value) :
    setModel setting value (some line) auto_save =
      { outcome := SetOutcome.confirmError (pyStrip line), log_dumped := true
        , sent := [setting ++ intToDecimal value] } := by
  simp [setModel, h]

/-- Witness for C4 at the device message documented in the source comment. -/
theorem set_confirmation_mismatch_error_witness :
    setModel "L" 500 (some "value out of range (200...2000 mA)\n") false =
      { outcome := SetOutcome.confirmError "value out of range (200...2000 mA)"
        , log_dumped := true, sent := ["L500"] } := by
  have h := set_confirmation_mismatch_error "L" 500
    "value out of range (200...2000 mA)\n" false (by decide)
  simpa using h

/-- Claim C6: the throttler's minimum interval is not the configuration
value supplied at construction — `__init__` assigns the literal `0.01`
(`mtd415t_device.py` line 89) and never reads `minimal_query_interval_s`,
so constructing with `0.5` still yields a 10 ms interval. -/
theorem init_ignores_min_interval_argument :
    (mtd415t_init 0 (1/2)).min_query_interval_s = 1/100 ∧
    ¬((1 : ℚ)/100 = 1/2) :=
  ⟨rfl, by norm_num⟩

/-- Claim C10, counterexample: a garbled (non-timeout) read of TEC voltage
does not yield the unavailable marker — the literal `unknown command` line
reaches `float(value)` at line 268 and the getter ends with a
`ValueError`. -/
theorem tec_voltage_garbled_raises :
    tec_voltage (some "unknown command\n") = TecVoltageResult.valueError ∧
    tec_voltage (some "unknown command\n") ≠ TecVoltageResult.unavailable := by
  constructor <;> decide

/-- Claim C10 (amended): every getter that issues a query passes
`retry=True` except `tec_voltage`, which leaves `retry` at `False`; with
`retry=False` a single attempt is made whatever the device answers; a
timed-out read of TEC voltage yields the unavailable marker, while a
garbled non-timeout line is not converted to the marker — it goes to
`float`, giving the scaled reading when it parses and a `ValueError`
when it does not. -/
theorem getter_retry_flags :
    (∀ g ∈ getters, (g.retry = false ↔ g.name = "tec_voltage")) ∧
    (∀ dev : ℕ → Option String, ∀ fuel : ℕ,
      queryRun dev false (fuel + 1) 0 = RunOutcome.done (dev 0) 1) ∧
    tec_voltage none = TecVoltageResult.unavailable ∧
    (∀ line : String, pyFloat line = none →
      tec_voltage (some line) = TecVoltageResult.valueError) ∧
    (∀ line : String, ∀ q : ℚ, pyFloat line = some q →
      tec_voltage (some line) = TecVoltageResult.reading (q / 1000)) := by
  refine ⟨by decide, fun dev fuel => by simp [queryRun], rfl,
    fun line h => ?_, fun line q h => ?_⟩
  · simp [tec_voltage, h]
  · simp [tec_voltage, h]

/-- Witness for C10 (amended) at the `tec_voltage` getter, an
always-timing-out device, and the garbled `unknown command` line. -/
theorem getter_retry_flags_witness :
    ((⟨"tec_voltage", "U", false⟩ : GetterSpec).retry = false ↔
      (⟨"tec_voltage", "U", false⟩ : GetterSpec).name = "tec_voltage") ∧
    queryRun (fun _ => none) false 1 0 = RunOutcome.done none 1 ∧
    tec_voltage (some "unknown command\n") = TecVoltageResult.valueError :=
  ⟨getter_retry_flags.1 ⟨"tec_voltage", "U", false⟩ (by decide),
   getter_retry_flags.2.1 (fun _ => none) 0,
   getter_retry_flags.2.2.2.1 "unknown command\n" (by decide)⟩

/-- Claim C7: before every query, a positive `idle = min_interval - (now -
last_query_time)` delays the wire exchange by exactly that amount; after the
exchange completes the last-query timestamp is set to the completion instant
while the interval is untouched; hence a second query entered at any later
instant starts at least `min_query_interval` after the first one started. -/
theorem query_throttling (st : ThrottleState) (now1 dur now2 : ℚ)
    (hdur : 0 ≤ dur) :
    (0 < idle_time_s st now1 →
      query_start_time st now1 = now1 + idle_time_s st now1) ∧
    (query_timing st now1 dur).2.last_query_time_s =
      query_start_time st now1 + dur ∧
    (query_timing st now1 dur).2.min_query_interval_s =
      st.min_query_interval_s ∧
    (query_timing st now1 dur).1 + st.min_query_interval_s ≤
      query_start_time (query_timing st now1 dur).2 now2 := by
  refine ⟨fun h => by rw [query_start_time, if_pos h], rfl, rfl, ?_⟩
  simp only [query_timing, query_start_time, idle_time_s]
  split_ifs with h1 h2 h2 <;> linarith

/-- Witness for C7 at a freshly constructed state queried twice at instant
0 with an instantaneous wire exchange. -/
theorem query_throttling_witness :
    (query_timing ⟨0, 1/100⟩ 0 0).1 +
        (⟨0, 1/100⟩ : ThrottleState).min_query_interval_s ≤
      query_start_time (query_timing ⟨0, 1/100⟩ 0 0).2 0 :=
  (query_throttling ⟨0, 1/100⟩ 0 0 0 le_rfl).2.2.2

/-- Claim C5, counterexample: for the status delay setting, the value
`32768.5`, strictly above the valid maximum 32768, is not rejected — the
setter truncates with `int()` before the range check, so the call reaches
`self.set` and transmits the wire command `d32768`. -/
theorem status_delay_range_check_bypass :
    ((32768 : ℚ) < 65537/2) ∧
    setterRun status_delay_setting (PyNum.numeric (65537/2)) =
      SetterOutcome.transmit "d" 32768 := by
  constructor
  · norm_num
  · norm_num [setterRun, status_delay_setting, pyInt, validate_is_in_range]

/-- Claim C5 (amended): every defined setter rejects a non-numeric value
with a type error naming the setting, before anything is transmitted; every
scaled setter rejects a value strictly outside its inclusive
`[valid_min, valid_max]` range with a range error, before anything is
transmitted; the unscaled status delay truncates with `int()` first and its
range check applies to the truncated value; `set_tec_current_limit(0.1)`
raises the range error without sending any command. -/
theorem setter_validation (d : SettingDescr) (hd : d ∈ settingDescrs)
    (x : ℚ) (s : String) :
    (validate_is_float_or_int (PyNum.nonNumeric s) = false ∧
      setterRun d (PyNum.nonNumeric s) = SetterOutcome.typeError d.name) ∧
    (d.scaled = true → (x < d.validMin ∨ d.validMax < x) →
      setterRun d (PyNum.numeric x) = SetterOutcome.rangeError d.name) ∧
    (d.scaled = false → ((pyInt x : ℚ) < d.validMin ∨ d.validMax < (pyInt x : ℚ)) →
      setterRun d (PyNum.numeric x) = SetterOutcome.rangeError d.name) ∧
    setterRun tec_current_limit_setting (PyNum.numeric (1/10)) =
      SetterOutcome.rangeError "TEC current limit" := by
  refine ⟨⟨rfl, rfl⟩, fun hs h => setterRun_scaled_range_error d hs x h,
    fun hs h => setterRun_unscaled_range_error d hs x h, ?_⟩
  refine setterRun_scaled_range_error tec_current_limit_setting rfl (1/10)
    (Or.inl ?_)
  norm_num [tec_current_limit_setting]

/-- Witness for C5 (amended) at the TEC current limit setter and the
scenario input 0.1 A. -/
theorem setter_validation_witness :
    setterRun tec_current_limit_setting (PyNum.numeric (1/10)) =
      SetterOutcome.rangeError "TEC current limit" :=
  (setter_validation tec_current_limit_setting (List.mem_cons_self _ _)
    0 "x").2.2.2

/-- Claim C9: for every defined setting and value inside its valid range,
the setter transmits a wire integer such that the corresponding getter view
of that same integer is within one scale unit of the value written: within
1/1000 in physical units for the scaled settings, within 1 for the unscaled
status delay. -/
theorem set_get_roundtrip (d : SettingDescr) (hd : d ∈ settingDescrs) (x : ℚ)
    (hlo : d.validMin ≤ x) (hhi : x ≤ d.validMax) :
    ∃ wire : ℤ,
      setterRun d (PyNum.numeric x) = SetterOutcome.transmit d.code wire ∧
      (d.scaled = true →
        ∃ q : ℚ, scaled_get (some wire) = Reading.value q ∧ |q - x| ≤ 1/1000) ∧
      (d.scaled = false →
        ∃ q : ℚ, status_delay_get (some wire) = Reading.value q ∧ |q - x| ≤ 1) := by
  by_cases hs : d.scaled = true
  · refine ⟨pyRound (x * 1000), setterRun_scaled_transmit d hs x hlo hhi,
      fun _ => ⟨_, rfl, scaled_roundtrip_close x⟩, fun hf => ?_⟩
    rw [hs] at hf
    exact absurd hf (by decide)
  · have hs' : d.scaled = false := by
      cases hb : d.scaled
      · rfl
      · exact absurd hb hs
    have hds : d = status_delay_setting := by
      unfold settingDescrs at hd
      fin_cases hd <;>
        first
          | rfl
          | simp [tec_current_limit_setting, temp_setpoint_setting,
              status_temp_window_setting, critical_gain_setting,
              critical_period_setting, cycling_time_setting, p_gain_setting,
              i_gain_setting, d_gain_setting] at hs'
    subst hds
    have hlo1 : (1 : ℚ) ≤ x := hlo
    have hhi1 : x ≤ 32768 := hhi
    have hx0 : (0 : ℚ) ≤ x := by linarith
    have hpy : pyInt x = ⌊x⌋ := by rw [pyInt, if_pos hx0]
    have hfl : (⌊x⌋ : ℚ) ≤ x := Int.floor_le x
    have hfu : x < ⌊x⌋ + 1 := Int.lt_floor_add_one x
    have hlo2 : (1 : ℚ) ≤ (⌊x⌋ : ℚ) := by
      have h1 : (1 : ℤ) ≤ ⌊x⌋ := Int.le_floor.mpr (by exact_mod_cast hlo1)
      exact_mod_cast h1
    refine ⟨pyInt x, setterRun_unscaled_transmit status_delay_setting rfl x ?_ ?_,
      fun hf => ?_, fun _ => ⟨_, rfl, ?_⟩⟩
    · rw [hpy]
      exact hlo2
    · rw [hpy]
      show (⌊x⌋ : ℚ) ≤ 32768
      linarith
    · exact absurd hf (by decide)
    · rw [hpy, abs_le]
      constructor <;> push_cast <;> linarith

/-- Witness for C9 at the temperature setpoint and the documented scenario
value 15.025 degrees, whose wire encoding is 15025. -/
theorem set_get_roundtrip_witness :
    ∃ wire : ℤ,
      setterRun temp_setpoint_setting (PyNum.numeric (601/40)) =
        SetterOutcome.transmit temp_setpoint_setting.code wire ∧
      (temp_setpoint_setting.scaled = true →
        ∃ q : ℚ, scaled_get (some wire) = Reading.value q ∧
          |q - 601/40| ≤ 1/1000) ∧
      (temp_setpoint_setting.scaled = false →
        ∃ q : ℚ, status_delay_get (some wire) = Reading.value q ∧
          |q - 601/40| ≤ 1) :=
  set_get_roundtrip temp_setpoint_setting
    (List.mem_cons_of_mem _ (List.mem_cons_self _ _)) (601/40)
    (by norm_num [temp_setpoint_setting]) (by norm_num [temp_setpoint_setting])

/-- Claim C8: decoding the 16-bit error register yields a 16-entry boolean
tuple with bit 0 first (entry `i` is bit `i` of the register); the
human-readable list walks the fixed table of documented bit positions
0-6, 13, 14 in ascending order keeping exactly the set bits; for register
value 5 the flags have exactly bits 0 and 2 set and the error list is
`not enabled`, `thermal latch-up`. -/
theorem error_register_decoding :
    (∀ err : ℕ, err < 65536 →
      (error_flags err).length = 16 ∧
      ∀ i : ℕ, i < 16 → (error_flags err).getD i false = err.testBit i) ∧
    error_flags 5 = [true, false, true] ++ List.replicate 13 false ∧
    errors 5 = ["not enabled", "thermal latch-up"] ∧
    ∀ err : ℕ, err < 65536 →
      errors err = (errorTable.filter fun p => err.testBit p.1).map fun p => p.2 := by
  have h16 : (65536 : ℕ) = 2 ^ 16 := by norm_num
  refine ⟨fun err h => ⟨error_flags_length err (h16 ▸ h),
      fun i hi => error_flags_getD err i (h16 ▸ h) hi⟩,
    by decide, by decide, fun err h => ?_⟩
  unfold errors
  congr 1
  apply List.filter_congr
  intro p hp
  have hp1 : p.1 < 16 := by
    fin_cases hp <;> norm_num
  exact error_flags_getD err p.1 (h16 ▸ h) hp1

/-- Witness for C8 at register value 5 and bit 2. -/
theorem error_register_decoding_witness :
    (error_flags 5).getD 2 false = Nat.testBit 5 2 :=
  (error_register_decoding.1 5 (by norm_num)).2 2 (by norm_num)

/-- Witness for C1 (amended) at a device whose first read times out and
whose second read succeeds: exactly two attempts, returning the second
response. -/
theorem query_retry_until_first_good_witness :
    queryRun failOnceDev true 3 0 = RunOutcome.done (some "42\n") 2 := by
  have h := query_retry_until_first_good failOnceDev 1 0 3
    (by decide) (by decide) (by omega)
  simpa [failOnceDev] using h

end MTD415T

